import Mathlib

/-!
Verification of the xhs-publisher automation core (src/scripts/recovery.py and
src/scripts/xhs_auto.py) against its natural-language specification.

The Python code drives a real browser page; here the page's behaviour is an
explicit input: every operation that can raise in Python (navigation, clicks,
script evaluation, screenshots, image generation) is modelled as an
`Except Err _` value or a `Bool`/`Option` flag supplied by the environment,
and each embedded function returns a trace recording the observable effects
(calls issued, sleeps performed, screenshots captured, the returned value or
the exception that propagated).
-/

deriving instance DecidableEq for Except

namespace Xhs

/-- Exceptions.  The Python code only ever works with untyped engine errors
(Playwright exceptions), `RuntimeError`, and the `TypeError` that `raise None`
produces.  `navigationFailed` does not exist anywhere in the source; it is
modelled from the spec, which speaks of re-raising "as a `NavigationFailed`
error", so that the claim about it can be stated and compared with the code. -/
inductive Err where
  | engine (msg : String)
  | runtime (msg : String)
  | typeError (msg : String)
  | navigationFailed (msg : String)
deriving DecidableEq, Repr

/-- Python `str(e)`. -/
def errStr : Err → String
  | .engine m => m
  | .runtime m => m
  | .typeError m => m
  | .navigationFailed m => m

/-- Whether an error is the spec's typed navigation failure. -/
def isNavFailedErr : Err → Bool
  | .navigationFailed _ => true
  | _ => false

/-- Whether an `Except` computation finished without raising. -/
def exceptOk {α : Type} : Except Err α → Bool
  | .ok _ => true
  | .error _ => false

/-- Python `raise last_error` where `last_error : Option`.  `raise None`
produces `TypeError: exceptions must derive from BaseException`. -/
def raiseLast : Option Err → Err
  | none => .typeError "exceptions must derive from BaseException"
  | some e => e

/-! ## recovery.retry (src/scripts/recovery.py lines 33-69)

The decorator's wrapped call is embedded as a function of the behaviour of
the underlying operation: `op k` is what the operation does on attempt `k`
(attempts are numbered from 1 as in the Python `range(1, max_retries + 1)`).
The trace records how many times the operation was called, the sleeps
performed between attempts, and the final outcome. -/

structure RetryTrace (α : Type) where
  calls : Nat
  sleeps : List Nat
  result : Except Err α
deriving DecidableEq, Repr

/-- One frame of the `for attempt in range(1, max_retries + 1)` loop.
`remaining` is the number of attempts left, `attempt` the 1-based index,
`curDelay` the Python `current_delay` local, `lastErr` the `last_error`
local.  A non-recoverable error is not caught by `except recoverable_errors`
and propagates at once; on the last attempt the loop exits and
`raise last_error` runs; with no attempts left at all, `raise last_error`
runs with `last_error` still `None` (lines 49-67). -/
def retryLoop {α : Type} (op : Nat → Except Err α) (recoverable : Err → Bool)
    (backoff : Nat) : Nat → Nat → Nat → Option Err → RetryTrace α
  | 0, _, _, lastErr => ⟨0, [], .error (raiseLast lastErr)⟩
  | r + 1, attempt, curDelay, _ =>
    match op attempt with
    | .ok v => ⟨1, [], .ok v⟩
    | .error e =>
      if recoverable e then
        if r = 0 then ⟨1, [], .error e⟩
        else
          let rest := retryLoop op recoverable backoff r (attempt + 1)
            (curDelay * backoff) (some e)
          ⟨rest.calls + 1, curDelay :: rest.sleeps, rest.result⟩
      else ⟨1, [], .error e⟩

/-- `recovery.retry(max_retries, delay, backoff, recoverable_errors)` applied
to an operation and invoked once.  `max_retries` is an `Int` because Python
accepts non-positive values, for which `range(1, max_retries + 1)` is empty. -/
def retry {α : Type} (op : Nat → Except Err α) (recoverable : Err → Bool)
    (max_retries : Int) (delay backoff : Nat) : RetryTrace α :=
  retryLoop op recoverable backoff max_retries.toNat 1 delay none

/-! ## Substring matching (Python `needle in haystack` on strings) -/

/-- Whether `needle` is a prefix of `hay` (character lists). -/
def startsWithL : List Char → List Char → Bool
  | [], _ => true
  | _ :: _, [] => false
  | a :: as, b :: bs => a == b && startsWithL as bs

/-- Whether `needle` occurs as a contiguous substring of `hay`. -/
def hasSubstrL (needle : List Char) : List Char → Bool
  | [] => startsWithL needle []
  | b :: bs => startsWithL needle (b :: bs) || hasSubstrL needle bs

/-- Python `needle in hay` for strings. -/
def hasSubstr (needle hay : String) : Bool :=
  hasSubstrL needle.data hay.data

/-! ## recovery.safe_navigate (src/scripts/recovery.py lines 72-97)

`gotoRes k` is the outcome of `page.goto` on attempt `k`.  The reload
attempted between failed attempts has its errors swallowed (`except
Exception: pass`), so only its call count is recorded.  On the last failed
attempt the code calls `save_error_snapshot(page, 'nav_fail')` and then does
a bare `raise`, re-raising the very same error object. -/

structure NavTrace where
  gotoCalls : Nat
  reloadCalls : Nat
  snapshotLabels : List String
  result : Except Err (Option Bool)
deriving DecidableEq, Repr

def safeNavLoop (gotoRes : Nat → Except Err Unit) : Nat → Nat → NavTrace
  | 0, _ => ⟨0, 0, [], .ok none⟩
  | r + 1, attempt =>
    match gotoRes attempt with
    | .ok _ => ⟨1, 0, [], .ok (some true)⟩
    | .error e =>
      if r = 0 then ⟨1, 0, ["nav_fail"], .error e⟩
      else
        let rest := safeNavLoop gotoRes r (attempt + 1)
        ⟨rest.gotoCalls + 1, rest.reloadCalls + 1, rest.snapshotLabels, rest.result⟩

/-- `safe_navigate(page, url, timeout, retries)`.  With `retries = 0` the
Python loop body never runs and the function falls through returning `None`,
hence the `Option Bool` in the result. -/
def safe_navigate (gotoRes : Nat → Except Err Unit) (retries : Nat) : NavTrace :=
  safeNavLoop gotoRes retries 1

/-! ## recovery.check_page_health (src/scripts/recovery.py lines 154-170)

A page is modelled by its current URL (`page.url` is a cached attribute in
the sync driver and is modelled as non-raising) and by the outcome of the
trivial `document.readyState` evaluation. -/

structure Page where
  url : String
  evalRes : Except Err Unit

structure PageHealth where
  ok : Bool
  url : String
  error : Option String
deriving DecidableEq, Repr

def check_page_health (p : Page) : PageHealth :=
  if hasSubstr "error" p.url || hasSubstr "about:blank" p.url then
    ⟨false, p.url, some "页面异常"⟩
  else
    match p.evalRes with
    | .ok _ => ⟨true, p.url, none⟩
    | .error e => ⟨false, "", some (errStr e)⟩

/-! ## recovery.recover_page (src/scripts/recovery.py lines 173-191) -/

structure RecoverTrace where
  navigated : Bool
  result : Bool
deriving DecidableEq, Repr

/-- `recover_page(page, target_url)`: if the health check passes and
`target_url in health['url']`, return `True` without navigating; otherwise
run `safe_navigate` (default retries 3) and report whether it raised. -/
def recover_page (p : Page) (gotoRes : Nat → Except Err Unit)
    (target : String) : RecoverTrace :=
  let health := check_page_health p
  if health.ok && hasSubstr target health.url then ⟨false, true⟩
  else
    match (safe_navigate gotoRes 3).result with
    | .ok _ => ⟨true, true⟩
    | .error _ => ⟨true, false⟩

/-! ## publish_note (src/scripts/xhs_auto.py lines 157-409)

The workflow's interaction with the page and with the image-generation
collaborator is modelled through an explicit environment (`PubEnv`): each
field corresponds to one fallible operation of the Python code, with a
comment citing the source lines.  The trace records the media list passed to
`set_input_files`, the number of submit-button clicks, the number of outer
submit attempts that ran, and the value returned (or the exception that
escaped `publish_note`). -/

/-- The dict values `publish_note` can return, plus `raised` for an
exception escaping the function and `noneReturn` for Python's implicit
`None` (only reachable if the submit loop ran zero iterations). -/
inductive PubOutcome where
  | navFailed (error : String)
  | dryRunSuccess (screenshot : String)
  | published (screenshot : String)
  | uncertainRes (screenshot : String)
  | submitFailed (error : String) (screenshot : String) (retries : Nat)
  | raised (e : Err)
  | noneReturn
deriving DecidableEq, Repr

/-- Whether an outcome is an exception escaping `publish_note`. -/
def isRaised : PubOutcome → Bool
  | .raised _ => true
  | _ => false

/-- Behaviour of the page during one iteration of the submit loop
(xhs_auto.py lines 318-409):
* `healthOk` — `check_page_health(page)['ok']` (line 321);
* `recoverOk` — result of `recover_page(page, XHS_PUBLISH)` when unhealthy
  (line 324);
* `clickOk` — whether `publish_btn.wait_for` + `publish_btn.click` succeed
  (lines 327-329; on failure the click is not issued);
* `urlLeft1` — check 1: `'/publish/publish' not in page.url` right after the
  click (line 339);
* `successText` — check 2: a "发布成功" marker is on the page (line 345);
* `errText` — check 3: the first visible failure-text marker, if any
  (lines 352-360);
* `urlLeft2` — check 4: the URL re-check after the extra 5s grace delay
  (line 366). -/
structure SubmitAttemptEnv where
  healthOk : Bool
  recoverOk : Bool
  clickOk : Bool
  urlLeft1 : Bool
  successText : Bool
  errText : Option String
  urlLeft2 : Bool

/-- Result of one submit attempt: how the `try` block ends. -/
inductive SubOut where
  | retOk
  | retUncertain
  | exn (msg : String)
deriving DecidableEq, Repr

/-- One iteration of the submit loop body (lines 319-393): returns the number
of submit-button clicks issued by this attempt and how the attempt ended.
A `Success` classification returns from `publish_note`; an explicit failure
marker raises `RuntimeError(error_msg)` (line 383), which the outer `except`
catches; an indeterminate classification returns the uncertain dict at once
(lines 388-393). -/
def submitAttempt (a : SubmitAttemptEnv) : Nat × SubOut :=
  if !a.healthOk && !a.recoverOk then (0, .exn "页面恢复失败")
  else if !a.clickOk then (0, .exn "点击发布按钮失败")
  else if a.urlLeft1 then (1, .retOk)
  else if a.successText then (1, .retOk)
  else
    match a.errText with
    | some t => (1, .exn ("页面提示: " ++ t))
    | none => if a.urlLeft2 then (1, .retOk) else (1, .retUncertain)

structure SubmitTrace where
  clicks : Nat
  attemptsUsed : Nat
  outcome : PubOutcome
deriving DecidableEq, Repr

/-- The outer submit loop `for attempt in range(1, max_publish_retries + 1)`
(lines 317-409) with `max_publish_retries = 3`.  Only an exception reaches
the retry branch; on the last attempt the exception turns into the failure
dict with `'retries': max_publish_retries` (lines 404-409). -/
def submitLoop (env : Nat → SubmitAttemptEnv) : Nat → Nat → SubmitTrace
  | 0, _ => ⟨0, 0, .noneReturn⟩
  | r + 1, attempt =>
    match submitAttempt (env attempt) with
    | (c, .retOk) => ⟨c, 1, .published "post_shot"⟩
    | (c, .retUncertain) => ⟨c, 1, .uncertainRes "post_shot"⟩
    | (c, .exn msg) =>
      if r = 0 then ⟨c, 1, .submitFailed msg "publish_final_fail" 3⟩
      else
        let rest := submitLoop env r (attempt + 1)
        ⟨c + rest.clicks, 1 + rest.attemptsUsed, rest.outcome⟩

/-- Step 3 default cover (lines 230-239, 618-676): the default cover path is
used as the sole media item; `_generate_default_cover` runs only when the
file does not exist, and its `try` catches only `ImportError` (line 656), so
any other exception while drawing or saving — `coverRaises` — escapes. -/
def defaultCoverStep (coverExists : Bool) (coverRaises : Option Err) :
    Except Err (List String) :=
  if coverExists then .ok ["default_cover.png"]
  else
    match coverRaises with
    | some e => .error e
    | none => .ok ["default_cover.png"]

/-- Step 3 AI generation (lines 209-228).  With `image_count > 1` the code
calls `_auto_generate_multi_images` (line 212) outside any `try`, and that
function runs `from image_gen import generate_image` at line 564 outside
its own `try` blocks; importing `image_gen` executes `from PIL import ...`
at image_gen.py line 13, so an import failure — `genImportRaises` — escapes
`publish_note`.  On a successful import the multi generator absorbs its
per-image errors (lines 601-609); an empty result falls back to
`_auto_generate_image`, whose whole body (its own import included) sits in
a `try ... except Exception` (lines 496-523).  With `image_count ≤ 1` only
the fully guarded single generator runs. -/
def autoGen (imageCount : Nat) (genImportRaises : Option Err)
    (genMulti : List String) (genSingle : Option String) :
    Except Err (List String) :=
  if 1 < imageCount then
    match genImportRaises with
    | some e => .error e
    | none =>
      .ok (if genMulti.isEmpty then
        (match genSingle with
         | some s => [s]
         | none => [])
      else genMulti)
  else
    .ok (match genSingle with
      | some s => [s]
      | none => [])

/-- Step 3 media resolution (lines 207-239): `image_paths = images or []`;
if empty and `auto_image`, use the AI generators (whose module import can
raise when `image_count > 1`), then fall back to the default cover; if
empty and not `auto_image`, the default cover directly. -/
def resolveMedia (images : List String) (autoImage : Bool) (imageCount : Nat)
    (genImportRaises : Option Err) (genMulti : List String)
    (genSingle : Option String) (coverExists : Bool)
    (coverRaises : Option Err) : Except Err (List String) :=
  if images.isEmpty then
    if autoImage then
      match autoGen imageCount genImportRaises genMulti genSingle with
      | .error e => .error e
      | .ok paths =>
        if paths.isEmpty then defaultCoverStep coverExists coverRaises
        else .ok paths
    else defaultCoverStep coverExists coverRaises
  else .ok images

/-- image_gen.render_text_pages (src/scripts/image_gen.py lines 313-445) at
the level the workflow depends on: the text is laid out into a list of pages
(abstracted here as the input `pages`), and lines 440-445 cap it with
`pages = pages[:max_pages]` (the ellipsis line appended afterwards changes a
page's contents, not the page count). -/
def render_text_pages (pages : List String) (maxPages : Nat) : List String :=
  pages.take maxPages

/-- Overflow-text splice (xhs_auto.py lines 241-257): when overflow text is
present, `max_text_pages = 9 - min(len(image_paths), 1)`; if the render call
raises, the `except` keeps the list unchanged; if it returns a non-empty
list, keep only the first cover and append the pages. -/
def spliceOverflow (imagePaths : List String) (overflowNonempty : Bool)
    (overflowPages : List String) (renderRaises : Bool) : List String :=
  if overflowNonempty then
    if renderRaises then imagePaths
    else
      let maxText := 9 - min imagePaths.length 1
      let tp := render_text_pages overflowPages maxText
      if tp.isEmpty then imagePaths
      else imagePaths.take 1 ++ tp
  else imagePaths

/-- Environment of one `publish_note` run: each field is the behaviour of
one fallible operation, cited to xhs_auto.py.
* `navOk` — whether `safe_navigate(page, XHS_PUBLISH, ...)` succeeds; its
  failure is caught and returns the nav-failure dict (lines 178-184);
* `tabEval` — the step-2 `page.evaluate` tab click, caught at line 204;
* `genImportRaises` — failure of the unguarded
  `from image_gen import generate_image` inside
  `_auto_generate_multi_images` (line 564; PIL import at image_gen.py
  line 13), reached only when `image_count > 1`, with NO handler in
  `publish_note`;
* `genMulti`, `genSingle` — AI image generator results (lines 209-228);
* `coverExists`, `coverRaises` — default cover (lines 230-239, 618-676);
* `overflowPages`, `overflowRaises` — `render_text_pages` (lines 241-257,
  the `except` at line 256 absorbs a raise);
* `uploadRes` — `set_input_files`, caught at line 266;
* `titleRes` — title fill, caught at line 276;
* `bodyRes` — body type-in, caught at line 288;
* `aiDeclRes` — AI declaration, caught at line 298;
* `preShotRaises` — the pre-submit `page.screenshot` at line 303, which is
  NOT inside any `try`;
* `submit` — behaviour of each submit-loop attempt. -/
structure PubEnv where
  navOk : Bool
  tabEval : Except Err Bool
  genImportRaises : Option Err
  genMulti : List String
  genSingle : Option String
  coverExists : Bool
  coverRaises : Option Err
  overflowPages : List String
  overflowRaises : Bool
  uploadRes : Except Err Unit
  titleRes : Except Err Unit
  bodyRes : Except Err Unit
  aiDeclRes : Except Err Unit
  preShotRaises : Option Err
  submit : Nat → SubmitAttemptEnv

structure PubTrace where
  mediaAttached : List String
  submitClicks : Nat
  submitAttempts : Nat
  result : PubOutcome
deriving DecidableEq, Repr

/-- `publish_note(page, title, content, tags, images, dry_run, auto_image,
image_count, overflow_text)` (lines 157-409).  Steps 2, 3-upload, 4, 5, 6,
6.5 each sit in their own `try/except` that logs and continues, so their
behaviours (`tabEval`, `uploadRes`, `titleRes`, `bodyRes`, `aiDeclRes`, the
per-tag handlers inside `_add_tags`) cannot alter the returned value; they
are consumed below without influencing the result, exactly as in the code.
The image_gen module import reached when `image_count > 1`, a
non-ImportError default-cover failure, and the step-8 screenshot have no
handler and escape as `raised`. -/
def publish_note (title content : String) (tags images : List String)
    (dry_run auto_image : Bool) (image_count : Nat)
    (overflowNonempty : Bool) (env : PubEnv) : PubTrace :=
  let _ := title
  let _ := content
  let _ := tags
  if !env.navOk then ⟨[], 0, 0, .navFailed "导航到发布页失败"⟩
  else
    let _ := env.tabEval
    match resolveMedia images auto_image image_count env.genImportRaises
        env.genMulti env.genSingle env.coverExists env.coverRaises with
    | .error e => ⟨[], 0, 0, .raised e⟩
    | .ok basePaths =>
      let paths := spliceOverflow basePaths overflowNonempty env.overflowPages
        env.overflowRaises
      let _ := env.uploadRes
      let _ := env.titleRes
      let _ := env.bodyRes
      let _ := env.aiDeclRes
      match env.preShotRaises with
      | some e => ⟨paths, 0, 0, .raised e⟩
      | none =>
        if dry_run then ⟨paths, 0, 0, .dryRunSuccess "pre_publish_shot"⟩
        else
          let st := submitLoop env.submit 3 1
          ⟨paths, st.clicks, st.attemptsUsed, st.outcome⟩

/-! ## Concrete behaviours used by the counterexamples and witnesses -/

/-- A page whose submit attempts all classify as indeterminate: click
succeeds, no URL change, no success text, no failure marker, no late
redirect. -/
def c1Env : PubEnv :=
  ⟨true, .ok true, none, [], some "ai_cover.png", true, none, [], false,
    .ok (), .ok (), .ok (), .ok (), none,
    fun _ => ⟨true, true, true, false, false, none, false⟩⟩

/-- A page whose first submit attempt shows an explicit failure marker and
whose second attempt succeeds with a redirect. -/
def c2Env : PubEnv :=
  ⟨true, .ok true, none, [], some "ai_cover.png", true, none, [], false,
    .ok (), .ok (), .ok (), .ok (), none,
    fun n =>
      if n = 1 then ⟨true, true, true, false, false, some "发布失败", false⟩
      else ⟨true, true, true, true, false, none, false⟩⟩

/-- A page whose pre-submit screenshot raises; everything else is benign. -/
def c3Env : PubEnv :=
  ⟨true, .ok true, none, [], some "ai_cover.png", true, none, [], false,
    .ok (), .ok (), .ok (), .ok (), some (.engine "screenshot timeout"),
    fun _ => ⟨true, true, true, true, false, none, false⟩⟩

/-- A run in which importing the image_gen module fails (e.g. PIL missing);
everything else, including the pre-submit screenshot, is benign. -/
def c3iEnv : PubEnv :=
  ⟨true, .ok true, some (.engine "ImportError: No module named PIL"), [],
    none, true, none, [], false, .ok (), .ok (), .ok (), .ok (), none,
    fun _ => ⟨true, true, true, true, false, none, false⟩⟩

/-- A fully benign page environment. -/
def c3wEnv : PubEnv :=
  ⟨true, .ok true, none, [], some "ai_cover.png", true, none, [], false,
    .ok (), .ok (), .ok (), .ok (), none,
    fun _ => ⟨true, true, true, true, false, none, false⟩⟩

/-- An operation that fails with the same engine error on every attempt. -/
def c4op : Nat → Except Err Nat := fun _ => .error (.engine "boom")

/-- A predicate treating every error as recoverable (the decorator's
default `recoverable_errors = (Exception,)`). -/
def c4rec : Err → Bool := fun _ => true

/-- A benign page environment for the dry-run witness. -/
def c5Env : PubEnv :=
  ⟨true, .ok true, none, [], some "ai_cover.png", true, none, [], false,
    .ok (), .ok (), .ok (), .ok (), none,
    fun _ => ⟨true, true, true, true, false, none, false⟩⟩

/-- A benign environment with one AI cover and two overflow text pages. -/
def c6Env : PubEnv :=
  ⟨true, .ok true, none, [], some "cover.png", true, none, ["p1.png", "p2.png"],
    false, .ok (), .ok (), .ok (), .ok (), none,
    fun _ => ⟨true, true, true, true, false, none, false⟩⟩

/-- A navigation that times out with the same engine error on every
attempt. -/
def c7goto : Nat → Except Err Unit := fun _ => .error (.engine "net timeout")

/-- A healthy, interactive page already on the composer URL. -/
def c8Page : Page :=
  ⟨"https://creator.xiaohongshu.com/publish/publish", .ok ()⟩

/-- A navigation that always succeeds (irrelevant for the no-op case). -/
def c8goto : Nat → Except Err Unit := fun _ => .ok ()

/-- An operation that would fail with an engine error if it were called. -/
def c10op : Nat → Except Err Nat := fun _ => .error (.engine "boom")

/-- Recoverable predicate for the `C10` witness. -/
def c10rec : Err → Bool := fun _ => true

/-! ## Helper lemmas -/

/-- One-step unfolding of `retryLoop` on a failing recoverable attempt that
is not the last one. -/
theorem retryLoop_step {α : Type} (op : Nat → Except Err α)
    (recoverable : Err → Bool) (backoff r attempt curDelay : Nat)
    (lastErr : Option Err) (e : Err)
    (he : op attempt = Except.error e) (hrec : recoverable e = true) :
    retryLoop op recoverable backoff (r + 1 + 1) attempt curDelay lastErr =
      ⟨(retryLoop op recoverable backoff (r + 1) (attempt + 1)
          (curDelay * backoff) (some e)).calls + 1,
        curDelay :: (retryLoop op recoverable backoff (r + 1) (attempt + 1)
          (curDelay * backoff) (some e)).sleeps,
        (retryLoop op recoverable backoff (r + 1) (attempt + 1)
          (curDelay * backoff) (some e)).result⟩ := by
  conv_lhs => rw [retryLoop]
  rw [he]
  dsimp only
  rw [if_pos hrec, if_neg (Nat.succ_ne_zero r)]

/-- One-step unfolding of `retryLoop` on a failing recoverable last
attempt. -/
theorem retryLoop_last {α : Type} (op : Nat → Except Err α)
    (recoverable : Err → Bool) (backoff attempt curDelay : Nat)
    (lastErr : Option Err) (e : Err)
    (he : op attempt = Except.error e) (hrec : recoverable e = true) :
    retryLoop op recoverable backoff 1 attempt curDelay lastErr =
      ⟨1, [], Except.error e⟩ := by
  conv_lhs => rw [retryLoop]
  rw [he]
  dsimp only
  rw [if_pos hrec, if_pos rfl]

/-- On a run where every attempt fails recoverably, the retry loop makes one
call per remaining attempt, sleeps the geometric delays between consecutive
attempts, and ends with the error of the last attempt. -/
theorem retryLoop_all_fail {α : Type} (op : Nat → Except Err α)
    (recoverable : Err → Bool) (backoff : Nat)
    (hfail : ∀ k, ∃ e, op k = Except.error e ∧ recoverable e = true) :
    ∀ r attempt curDelay lastErr, 1 ≤ r →
      (retryLoop op recoverable backoff r attempt curDelay lastErr).calls = r ∧
      (retryLoop op recoverable backoff r attempt curDelay lastErr).sleeps =
        (List.range (r - 1)).map (fun k => curDelay * backoff ^ k) ∧
      ∀ e, op (attempt + r - 1) = Except.error e →
        (retryLoop op recoverable backoff r attempt curDelay lastErr).result =
          Except.error e := by
  intro r
  induction r with
  | zero => intro attempt curDelay lastErr h; omega
  | succ s ih =>
    intro attempt curDelay lastErr _
    obtain ⟨e, he, hrec⟩ := hfail attempt
    cases s with
    | zero =>
      rw [retryLoop_last op recoverable backoff attempt curDelay lastErr e he hrec]
      refine ⟨rfl, by simp, ?_⟩
      intro e2 he2
      have h0 : attempt + 1 - 1 = attempt := by omega
      rw [h0, he] at he2
      injection he2 with h3
      rw [h3]
    | succ t =>
      have ihh := ih (attempt + 1) (curDelay * backoff) (some e) (by omega)
      rw [retryLoop_step op recoverable backoff t attempt curDelay lastErr e he hrec]
      refine ⟨?_, ?_, ?_⟩
      · dsimp only
        rw [ihh.1]
      · dsimp only
        rw [ihh.2.1]
        have hidx : t + 1 - 1 = t := by omega
        have hidx2 : t + 1 + 1 - 1 = t + 1 := by omega
        rw [hidx, hidx2, List.range_succ_eq_map, List.map_cons, List.map_map]
        have hfun : ((fun k => curDelay * backoff ^ k) ∘ Nat.succ) =
            (fun k => curDelay * backoff * backoff ^ k) := by
          funext k
          simp only [Function.comp_apply, pow_succ]
          ring
        rw [hfun]
        simp
      · intro e2 he2
        dsimp only
        apply ihh.2.2
        have hidx : attempt + 1 + (t + 1) - 1 = attempt + (t + 1 + 1) - 1 := by
          omega
        rw [hidx]
        exact he2

/-- On a run where every attempt of `page.goto` fails, the navigation loop
ends with the 'nav_fail' snapshot and the error of the last attempt. -/
theorem safeNavLoop_all_fail (gotoRes : Nat → Except Err Unit)
    (hfail : ∀ k, ∃ e, gotoRes k = Except.error e) :
    ∀ r attempt, 1 ≤ r →
      (safeNavLoop gotoRes r attempt).snapshotLabels = ["nav_fail"] ∧
      ∀ e, gotoRes (attempt + r - 1) = Except.error e →
        (safeNavLoop gotoRes r attempt).result = Except.error e := by
  intro r
  induction r with
  | zero => intro attempt h; omega
  | succ s ih =>
    intro attempt _
    obtain ⟨e, he⟩ := hfail attempt
    cases s with
    | zero =>
      have hstep : safeNavLoop gotoRes 1 attempt = ⟨1, 0, ["nav_fail"], .error e⟩ := by
        conv_lhs => rw [safeNavLoop]
        rw [he]
        dsimp only
        rw [if_pos rfl]
      rw [hstep]
      refine ⟨rfl, ?_⟩
      intro e2 he2
      have h0 : attempt + 1 - 1 = attempt := by omega
      rw [h0, he] at he2
      injection he2 with h3
      rw [h3]
    | succ t =>
      have ihh := ih (attempt + 1) (by omega)
      have hstep : safeNavLoop gotoRes (t + 1 + 1) attempt =
          ⟨(safeNavLoop gotoRes (t + 1) (attempt + 1)).gotoCalls + 1,
            (safeNavLoop gotoRes (t + 1) (attempt + 1)).reloadCalls + 1,
            (safeNavLoop gotoRes (t + 1) (attempt + 1)).snapshotLabels,
            (safeNavLoop gotoRes (t + 1) (attempt + 1)).result⟩ := by
        conv_lhs => rw [safeNavLoop]
        rw [he]
        dsimp only
        rw [if_neg (Nat.succ_ne_zero t)]
      rw [hstep]
      refine ⟨ihh.1, ?_⟩
      intro e2 he2
      apply ihh.2
      have hidx : attempt + 1 + (t + 1) - 1 = attempt + (t + 1 + 1) - 1 := by
        omega
      rw [hidx]
      exact he2

/-- A health check that reports `ok` reports the page's own URL. -/
theorem check_page_health_ok_eq (p : Page)
    (h : (check_page_health p).ok = true) :
    check_page_health p = ⟨true, p.url, none⟩ := by
  unfold check_page_health at h ⊢
  cases hb : (hasSubstr "error" p.url || hasSubstr "about:blank" p.url) with
  | true => rw [hb] at h; simp at h
  | false =>
    cases hev : p.evalRes with
    | ok v => simp [hev]
    | error e =>
      rw [hev] at h
      simp only [Bool.or_eq_false_iff] at hb
      simp [hb.1, hb.2] at h

/-- The submit loop never yields an escaped exception. -/
theorem submitLoop_not_raised (env : Nat → SubmitAttemptEnv) :
    ∀ r attempt, isRaised (submitLoop env r attempt).outcome = false := by
  intro r
  induction r with
  | zero => intro attempt; rfl
  | succ s ih =>
    intro attempt
    rw [submitLoop]
    rcases hsa : submitAttempt (env attempt) with ⟨c, o⟩
    cases o with
    | retOk => rfl
    | retUncertain => rfl
    | exn msg =>
      dsimp only
      by_cases hs : s = 0
      · rw [if_pos hs]
        rfl
      · rw [if_neg hs]
        dsimp only
        exact ih (attempt + 1)

/-- Each submit attempt issues at most one click of the publish button. -/
theorem submitAttempt_clicks_le (a : SubmitAttemptEnv) :
    (submitAttempt a).1 ≤ 1 := by
  unfold submitAttempt
  repeat' split
  all_goals simp

/-- The submit loop issues at most one click per remaining attempt. -/
theorem submitLoop_clicks_le (env : Nat → SubmitAttemptEnv) :
    ∀ r attempt, (submitLoop env r attempt).clicks ≤ r := by
  intro r
  induction r with
  | zero => intro attempt; exact Nat.le_refl 0
  | succ s ih =>
    intro attempt
    have hc := submitAttempt_clicks_le (env attempt)
    rw [submitLoop]
    rcases hsa : submitAttempt (env attempt) with ⟨c, o⟩
    rw [hsa] at hc
    cases o with
    | retOk => exact Nat.le_trans hc (by omega)
    | retUncertain => exact Nat.le_trans hc (by omega)
    | exn msg =>
      dsimp only
      by_cases hs : s = 0
      · rw [if_pos hs]
        exact Nat.le_trans hc (by omega)
      · rw [if_neg hs]
        dsimp only
        have := ih (attempt + 1)
        simp only at hc ⊢
        omega

/-- With no raising default cover, step-3 media resolution cannot raise. -/
theorem defaultCoverStep_none (ce : Bool) :
    defaultCoverStep ce none = Except.ok ["default_cover.png"] := by
  cases ce <;> rfl

/-- With a succeeding image_gen import, step-3 AI generation cannot
raise. -/
theorem autoGen_import_none (ic : Nat) (gm : List String)
    (gs : Option String) :
    ∃ l, autoGen ic none gm gs = Except.ok l := by
  unfold autoGen
  split
  · exact ⟨_, rfl⟩
  · exact ⟨_, rfl⟩

/-- Media resolution with a succeeding image_gen import and a non-raising
default cover always succeeds. -/
theorem resolveMedia_noRaise_ok (images : List String) (autoImage : Bool)
    (imageCount : Nat) (gm : List String) (gs : Option String) (ce : Bool) :
    ∃ ps, resolveMedia images autoImage imageCount none gm gs ce none =
      Except.ok ps := by
  unfold resolveMedia
  split
  · split
    · obtain ⟨l, hl⟩ := autoGen_import_none imageCount gm gs
      rw [hl]
      dsimp only
      split
      · exact ⟨_, defaultCoverStep_none ce⟩
      · exact ⟨_, rfl⟩
    · exact ⟨_, defaultCoverStep_none ce⟩
  · exact ⟨_, rfl⟩

/-- With no supplied images, auto-image on, a single-image count and a
successful single generation, the resolved media list is exactly the AI
cover: with `image_count = 1` the unguarded multi-generator import is never
reached. -/
theorem resolveMedia_single (gi : Option Err) (gm : List String) (c : String)
    (ce : Bool) (cr : Option Err) :
    resolveMedia [] true 1 gi gm (some c) ce cr = Except.ok [c] := by
  rfl

/-- Splicing overflow pages onto a single cover keeps the cover first and
appends at most 8 rendered pages. -/
theorem spliceOverflow_single_cover (c : String) (pages : List String) :
    spliceOverflow [c] true pages false = c :: pages.take 8 := by
  unfold spliceOverflow render_text_pages
  dsimp only
  cases h : pages.take 8 with
  | nil =>
    have h9 : (9 - min (List.length [c]) 1) = 8 := rfl
    rw [h9, h]
    rfl
  | cons x xs =>
    have h9 : (9 - min (List.length [c]) 1) = 8 := rfl
    rw [h9, h]
    rfl

/-! ## Claim theorems -/

/-- C4: for every retry policy with `maxAttempts = N` (N ≥ 1) whose
recoverable-predicate accepts the raised errors, an operation failing on
every attempt is called exactly N times, the sleeps between consecutive
attempts form the geometric sequence delay, delay·backoff, delay·backoff²,
…, and the error finally re-raised is exactly the error produced by the
N-th attempt. -/
theorem C4_retry_exhaustion {α : Type} (op : Nat → Except Err α)
    (recoverable : Err → Bool) (N delay backoff : Nat) (eN : Err)
    (hN : 1 ≤ N)
    (hfail : ∀ k, ∃ e, op k = Except.error e ∧ recoverable e = true)
    (hlast : op N = Except.error eN) :
    (retry op recoverable (Int.ofNat N) delay backoff).calls = N ∧
    (retry op recoverable (Int.ofNat N) delay backoff).sleeps =
      (List.range (N - 1)).map (fun k => delay * backoff ^ k) ∧
    (retry op recoverable (Int.ofNat N) delay backoff).result =
      Except.error eN := by
  have h := retryLoop_all_fail op recoverable backoff hfail N 1 delay none hN
  unfold retry
  have ht : (Int.ofNat N).toNat = N := rfl
  rw [ht]
  refine ⟨h.1, h.2.1, h.2.2 eN ?_⟩
  have hidx : 1 + N - 1 = N := by omega
  rw [hidx]
  exact hlast

/-- Witness for C4 at N = 2, delay 5, backoff 2, a permanently failing
operation. -/
theorem C4_retry_exhaustion_witness :
    (retry c4op c4rec (Int.ofNat 2) 5 2).calls = 2 ∧
    (retry c4op c4rec (Int.ofNat 2) 5 2).sleeps = [5] ∧
    (retry c4op c4rec (Int.ofNat 2) 5 2).result =
      Except.error (Err.engine "boom") := by
  have h := C4_retry_exhaustion c4op c4rec 2 5 2 (Err.engine "boom")
    (by decide) (fun k => ⟨Err.engine "boom", rfl, rfl⟩) rfl
  refine ⟨h.1, ?_, h.2.2⟩
  rw [h.2.1]
  rfl

/-- C10: with `max_retries` zero or negative, the wrapped function never
calls the underlying operation and raises a `TypeError` (Python's
`raise None`), not the operation's own error. -/
theorem C10_retry_nonpositive {α : Type} (op : Nat → Except Err α)
    (recoverable : Err → Bool) (m : Int) (delay backoff : Nat)
    (hm : m ≤ 0) :
    (retry op recoverable m delay backoff).calls = 0 ∧
    (retry op recoverable m delay backoff).result =
      Except.error (Err.typeError "exceptions must derive from BaseException") := by
  unfold retry
  have h0 : m.toNat = 0 := Int.toNat_of_nonpos hm
  rw [h0]
  exact ⟨rfl, rfl⟩

/-- Witness for C10 at `max_retries = -2` with an operation that would fail
with an engine error if it were ever called. -/
theorem C10_retry_nonpositive_witness :
    (retry c10op c10rec (-2) 5 2).calls = 0 ∧
    (retry c10op c10rec (-2) 5 2).result =
      Except.error (Err.typeError "exceptions must derive from BaseException") :=
  C10_retry_nonpositive c10op c10rec (-2) 5 2 (by decide)

/-- C7 counterexample: with every attempt of `page.goto` failing with the
same engine error, `safe_navigate` takes the 'nav_fail' snapshot but
re-raises the original untyped engine error, not a `NavigationFailed`
error. -/
theorem C7_counterexample :
    (safe_navigate c7goto 3).snapshotLabels = ["nav_fail"] ∧
    (safe_navigate c7goto 3).result = Except.error (Err.engine "net timeout") ∧
    isNavFailedErr (Err.engine "net timeout") = false :=
  ⟨rfl, rfl, rfl⟩

/-- C7 (amended): when `safe_navigate` fails on all of its attempts it
captures a 'nav_fail'-labeled error screenshot and then re-raises the very
error of the last attempt, unchanged and untyped — the code has no
`NavigationFailed` error type. -/
theorem C7_amended_final_failure (gotoRes : Nat → Except Err Unit)
    (retries : Nat) (eN : Err) (h1 : 1 ≤ retries)
    (hfail : ∀ k, ∃ e, gotoRes k = Except.error e)
    (hlast : gotoRes retries = Except.error eN) :
    (safe_navigate gotoRes retries).snapshotLabels = ["nav_fail"] ∧
    (safe_navigate gotoRes retries).result = Except.error eN := by
  have h := safeNavLoop_all_fail gotoRes hfail retries 1 h1
  unfold safe_navigate
  refine ⟨h.1, h.2 eN ?_⟩
  have hidx : 1 + retries - 1 = retries := by omega
  rw [hidx]
  exact hlast

/-- Witness for the amended C7 at 3 permanently failing attempts. -/
theorem C7_amended_final_failure_witness :
    (safe_navigate c7goto 3).snapshotLabels = ["nav_fail"] ∧
    (safe_navigate c7goto 3).result = Except.error (Err.engine "net timeout") :=
  C7_amended_final_failure c7goto 3 (Err.engine "net timeout") (by decide)
    (fun k => ⟨Err.engine "net timeout", rfl⟩) rfl

/-- C8: `recover_page` is a no-op — returns success without navigating —
whenever `check_page_health` reports the page healthy and the page's
current URL already matches (contains) the target URL. -/
theorem C8_recover_page_noop (p : Page) (gotoRes : Nat → Except Err Unit)
    (target : String) (hok : (check_page_health p).ok = true)
    (hmatch : hasSubstr target p.url = true) :
    recover_page p gotoRes target = ⟨false, true⟩ := by
  have h := check_page_health_ok_eq p hok
  unfold recover_page
  rw [h]
  simp [hmatch]

/-- Witness for C8 on a healthy composer page already at the target URL. -/
theorem C8_recover_page_noop_witness :
    recover_page c8Page c8goto "creator.xiaohongshu.com" = ⟨false, true⟩ :=
  C8_recover_page_noop c8Page c8goto "creator.xiaohongshu.com"
    (by decide) (by decide)

/-- C9: `check_page_health` is total by construction (it always returns a
record with an `ok` flag and a URL), and it reports `ok = false` exactly
when the page URL contains 'error' or 'about:blank' as a substring or the
trivial readyState evaluation raises; in particular a fully interactive
page whose URL merely contains 'error' in a query parameter is reported
unhealthy. -/
theorem C9_check_page_health_classification :
    (∀ p : Page, (check_page_health p).ok = false ↔
      (hasSubstr "error" p.url = true ∨ hasSubstr "about:blank" p.url = true ∨
        exceptOk p.evalRes = false)) ∧
    (check_page_health
      ⟨"https://site.example/items?filter=error_code", Except.ok ()⟩).ok
        = false := by
  constructor
  · intro p
    unfold check_page_health
    cases h1 : hasSubstr "error" p.url
    all_goals cases h2 : hasSubstr "about:blank" p.url
    all_goals cases hev : p.evalRes
    all_goals simp [exceptOk, h1, h2, hev]
  · decide

/-- C1 counterexample: on a page whose first submit attempt classifies as
indeterminate (click succeeded, no URL change, no success text, no failure
marker after the grace delay), `publish_note` returns the Indeterminate
result after a single attempt — although two attempts remain — and without
any retry count attached (the `uncertainRes` dict has no 'retries' key,
unlike `submitFailed`). -/
theorem C1_counterexample :
    (publish_note "标题" "正文" [] [] false true 1 false c1Env).submitAttempts
      = 1 ∧
    (publish_note "标题" "正文" [] [] false true 1 false c1Env).result =
      PubOutcome.uncertainRes "post_shot" :=
  ⟨rfl, rfl⟩

/-- C1 (amended): on a run that reaches the submit step (navigation
succeeded; the step-3 image_gen import, default-cover generation and
pre-submit screenshot did not raise), when the first submit attempt's
outcome classification yields Indeterminate, `publish_note` returns the
Indeterminate result immediately after that one attempt, without retrying
and without a retry count; only attempts that raise (explicit failure
markers or errors) re-run the submit-and-classify step. -/
theorem C1_amended_indeterminate_immediate (title content : String)
    (tags images : List String) (auto_image : Bool) (image_count : Nat)
    (overflowNonempty : Bool) (env : PubEnv)
    (hnav : env.navOk = true) (himp : env.genImportRaises = none)
    (hcov : env.coverRaises = none) (hshot : env.preShotRaises = none)
    (h1 : (env.submit 1).healthOk = true)
    (h2 : (env.submit 1).clickOk = true)
    (h3 : (env.submit 1).urlLeft1 = false)
    (h4 : (env.submit 1).successText = false)
    (h5 : (env.submit 1).errText = none)
    (h6 : (env.submit 1).urlLeft2 = false) :
    (publish_note title content tags images false auto_image image_count
      overflowNonempty env).submitAttempts = 1 ∧
    (publish_note title content tags images false auto_image image_count
      overflowNonempty env).result = PubOutcome.uncertainRes "post_shot" := by
  obtain ⟨ps, hps⟩ := resolveMedia_noRaise_ok images auto_image image_count
    env.genMulti env.genSingle env.coverExists
  have hatt : submitAttempt (env.submit 1) = (1, SubOut.retUncertain) := by
    unfold submitAttempt
    rw [h1, h2, h3, h4, h5, h6]
    rfl
  have hloop : submitLoop env.submit 3 1 =
      ⟨1, 1, PubOutcome.uncertainRes "post_shot"⟩ := by
    rw [submitLoop, hatt]
  constructor
  all_goals simp [publish_note, hnav, himp, hcov, hps, hshot, hloop]

/-- Witness for the amended C1 on a concrete always-indeterminate page. -/
theorem C1_amended_indeterminate_immediate_witness :
    (publish_note "t" "b" [] [] false true 1 false c1Env).submitAttempts
      = 1 ∧
    (publish_note "t" "b" [] [] false true 1 false c1Env).result =
      PubOutcome.uncertainRes "post_shot" :=
  C1_amended_indeterminate_immediate "t" "b" [] [] true 1 false c1Env
    rfl rfl rfl rfl rfl rfl rfl rfl rfl rfl

/-- C2 counterexample: on a page whose first submit attempt shows an
explicit failure marker and whose second attempt succeeds, `publish_note`
clicks the publish button twice in one invocation (the retry re-clicks
after the first click) and completes as published. -/
theorem C2_counterexample :
    (publish_note "标题" "正文" [] [] false true 1 false c2Env).submitClicks
      = 2 ∧
    (publish_note "标题" "正文" [] [] false true 1 false c2Env).result =
      PubOutcome.published "post_shot" :=
  ⟨rfl, rfl⟩

/-- C2 (amended): each submit attempt issues at most one click of the
publish button and the outer loop runs at most 3 attempts, so a single
`publish_note` invocation clicks submit at most 3 times; after an
indeterminate outcome the workflow returns without re-clicking, but after
an explicit failure marker or error the next attempt clicks submit again. -/
theorem C2_amended_click_bound (title content : String)
    (tags images : List String) (dry_run auto_image : Bool)
    (image_count : Nat) (overflowNonempty : Bool) (env : PubEnv) :
    (publish_note title content tags images dry_run auto_image image_count
      overflowNonempty env).submitClicks ≤ 3 := by
  cases hn : env.navOk with
  | false => simp [publish_note, hn]
  | true =>
    cases hr : resolveMedia images auto_image image_count env.genImportRaises
        env.genMulti env.genSingle env.coverExists env.coverRaises with
    | error e => simp [publish_note, hn, hr]
    | ok ps =>
      cases hs : env.preShotRaises with
      | some e => simp [publish_note, hn, hr, hs]
      | none =>
        cases dry_run with
        | true => simp [publish_note, hn, hr, hs]
        | false =>
          simp only [publish_note, hn, hr, hs, Bool.not_true,
            Bool.false_eq_true, if_false]
          exact submitLoop_clicks_le env.submit 3 1

/-- C3 counterexample: two concrete runs in which a step 2–9 failure
escapes `publish_note` as an exception instead of a structured result —
first, a failure of the pre-submit screenshot (step 8, in no `try/except`);
second, with `image_count = 2`, a failure of the unguarded image_gen
module import inside the step-3 multi-image generation. -/
theorem C3_counterexample :
    (publish_note "标题" "正文" [] [] false true 1 false c3Env).result =
      PubOutcome.raised (Err.engine "screenshot timeout") ∧
    (publish_note "标题" "正文" [] [] false true 2 false c3iEnv).result =
      PubOutcome.raised (Err.engine "ImportError: No module named PIL") :=
  ⟨rfl, rfl⟩

/-- C3 (amended): steps 2 through 7 and the dry-run short-circuit absorb
every failure, with three exceptions that escape `publish_note` uncaught:
the unguarded `from image_gen import generate_image` reached in step 3 when
`image_count > 1`, a non-ImportError failure of default-cover generation
(step 3), and the pre-submit screenshot (step 8).  When those three
operations do not raise, no exception escapes for steps 2–9 regardless of
the behaviour of every other step, and a structured result is returned. -/
theorem C3_amended_no_raise (title content : String)
    (tags images : List String) (dry_run auto_image : Bool)
    (image_count : Nat) (overflowNonempty : Bool) (env : PubEnv)
    (himp : env.genImportRaises = none) (hcov : env.coverRaises = none)
    (hshot : env.preShotRaises = none) :
    isRaised (publish_note title content tags images dry_run auto_image
      image_count overflowNonempty env).result = false := by
  obtain ⟨ps, hps⟩ := resolveMedia_noRaise_ok images auto_image image_count
    env.genMulti env.genSingle env.coverExists
  cases hn : env.navOk with
  | false => simp [publish_note, hn, isRaised]
  | true =>
    cases dry_run with
    | true => simp [publish_note, hn, himp, hcov, hps, hshot, isRaised]
    | false =>
      simp only [publish_note, hn, himp, hcov, hps, hshot, Bool.not_true,
        Bool.false_eq_true, if_false]
      exact submitLoop_not_raised env.submit 3 1

/-- Witness for the amended C3 on a fully benign environment. -/
theorem C3_amended_no_raise_witness :
    isRaised (publish_note "标题" "正文" [] [] false true 1 false
      c3wEnv).result = false :=
  C3_amended_no_raise "标题" "正文" [] [] false true 1 false c3wEnv
    rfl rfl rfl

/-- C5: with `dry_run = true` the submit button is never clicked — the
submit loop is never entered, on any page behaviour — and whenever the run
reaches the short-circuit (navigation succeeded; the step-3 image_gen
import, default-cover generation and the pre-submit screenshot did not
raise) the call returns the success result carrying the pre-submit
screenshot. -/
theorem C5_dry_run_no_submit (title content : String)
    (tags images : List String) (auto_image : Bool) (image_count : Nat)
    (overflowNonempty : Bool) (env : PubEnv) :
    (publish_note title content tags images true auto_image image_count
      overflowNonempty env).submitClicks = 0 ∧
    (env.navOk = true → env.genImportRaises = none →
      env.coverRaises = none → env.preShotRaises = none →
      (publish_note title content tags images true auto_image image_count
        overflowNonempty env).result =
          PubOutcome.dryRunSuccess "pre_publish_shot") := by
  constructor
  · cases hn : env.navOk with
    | false => simp [publish_note, hn]
    | true =>
      cases hr : resolveMedia images auto_image image_count
          env.genImportRaises env.genMulti env.genSingle env.coverExists
          env.coverRaises with
      | error e => simp [publish_note, hn, hr]
      | ok ps =>
        cases hs : env.preShotRaises with
        | some e => simp [publish_note, hn, hr, hs]
        | none => simp [publish_note, hn, hr, hs]
  · intro hnav himp hcov hshot
    obtain ⟨ps, hps⟩ := resolveMedia_noRaise_ok images auto_image
      image_count env.genMulti env.genSingle env.coverExists
    simp [publish_note, hnav, himp, hcov, hps, hshot]

/-- Witness for C5 on a benign environment in dry-run mode. -/
theorem C5_dry_run_no_submit_witness :
    (publish_note "标题" "正文" [] [] true true 1 false c5Env).submitClicks
      = 0 ∧
    (publish_note "标题" "正文" [] [] true true 1 false c5Env).result =
      PubOutcome.dryRunSuccess "pre_publish_shot" := by
  have h := C5_dry_run_no_submit "标题" "正文" [] [] true 1 false c5Env
  exact ⟨h.1, h.2 rfl rfl rfl rfl⟩

/-- C6: for a request with non-empty overflow text and one AI cover, the
media list finally attached has the cover first, followed by the rendered
text pages in order, and its length never exceeds 9 (at most 1 cover plus
at most 8 text pages). -/
theorem C6_overflow_media_cap (title content : String) (tags : List String)
    (dry_run : Bool) (env : PubEnv) (c : String)
    (hnav : env.navOk = true) (hgen : env.genSingle = some c)
    (hrender : env.overflowRaises = false) :
    (publish_note title content tags [] dry_run true 1 true env).mediaAttached
      = c :: env.overflowPages.take 8 ∧
    (publish_note title content tags [] dry_run true 1 true
      env).mediaAttached.length ≤ 9 := by
  have hres : resolveMedia [] true 1 env.genImportRaises env.genMulti
      env.genSingle env.coverExists env.coverRaises = Except.ok [c] := by
    rw [hgen]
    exact resolveMedia_single env.genImportRaises env.genMulti c
      env.coverExists env.coverRaises
  have hsp : spliceOverflow [c] true env.overflowPages false =
      c :: env.overflowPages.take 8 :=
    spliceOverflow_single_cover c env.overflowPages
  have hmedia : (publish_note title content tags [] dry_run true 1 true
      env).mediaAttached = c :: env.overflowPages.take 8 := by
    cases hs : env.preShotRaises with
    | some e => simp [publish_note, hnav, hres, hrender, hsp, hs]
    | none =>
      cases dry_run with
      | true => simp [publish_note, hnav, hres, hrender, hsp, hs]
      | false => simp [publish_note, hnav, hres, hrender, hsp, hs]
  refine ⟨hmedia, ?_⟩
  rw [hmedia]
  have ht := List.length_take_le 8 env.overflowPages
  simp only [List.length_cons]
  omega

/-- Witness for C6 with one AI cover and two overflow pages. -/
theorem C6_overflow_media_cap_witness :
    (publish_note "标题" "正文" [] [] false true 1 true c6Env).mediaAttached
      = "cover.png" :: c6Env.overflowPages.take 8 ∧
    (publish_note "标题" "正文" [] [] false true 1 true
      c6Env).mediaAttached.length ≤ 9 :=
  C6_overflow_media_cap "标题" "正文" [] false c6Env "cover.png" rfl rfl rfl

end Xhs
